import Mathlib

/-!
Verification of the JellyCli client (`src/main.py`).

A shallow embedding of the parts of `main.py` that the specification talks
about: the API client (`JellyfinServer._make_request`, `get_collections`,
`get_child_items`, `get_download_url`), the item rendering
(`display_items`), the interactive navigator (`browse_interactive`) and the
player launcher (`play_video`).

Conventions of the embedding:
* Python dictionary access `d.get(key)` on server JSON records is modelled
  by `Option` fields (absent key = `none`).
* Network traffic and process spawning are modelled by oracle values
  (`NetOutcome`, `SpawnOutcome`) supplied as extra arguments: the embedded
  functions are the deterministic rest of the Python code.
* `print` calls are modelled by accumulating the printed strings in a list,
  in order, one entry per `print`/prompt (the leading `"\n"` of a printed
  string is kept verbatim).
* An uncaught Python exception (joining a `None` path entry, `input()` at
  end of input) is modelled by the result `none`.
-/

/-- A server item record, as consumed via `item.get(...)` in `main.py`.
`itemType` models the `"Type"` key (`Type` is a reserved word in Lean). -/
structure Item where
  Id : Option String := none
  Name : Option String := none
  IsFolder : Bool := false
  VideoType : Option String := none
  itemType : Option String := none
  IndexNumber : Option Int := none
deriving DecidableEq

/-- The JSON body of an `/Items` response: `data.get('Items', [])` reads the
optional `Items` array (line 50 / line 56). -/
structure ItemsResponse where
  Items : Option (List Item) := none
deriving DecidableEq

/-- Oracle for one `session.get(url)` call (line 39): either the request
raises `requests.RequestException` at the network layer, or a response
arrives with a status code and a body that either parses as JSON
(`some body`) or does not (`none`; `response.json()` then raises
`requests.exceptions.JSONDecodeError`, a `RequestException` subclass). -/
inductive NetOutcome where
  | netError (msg : String)
  | reply (status : Nat) (body : Option ItemsResponse)
deriving DecidableEq

/-- Result of a client call that may call `sys.exit`: `fatal code msg` means
the diagnostic line starting with `msg` was printed to standard error and
`sys.exit(code)` was invoked.  (The text of the caught exception follows the
fixed diagnostic text `"Error making request: "`; the model keeps only the
fixed part.) -/
inductive ReqResult (α : Type) where
  | ok (data : α)
  | fatal (exitCode : Nat) (stderrMsg : String)
deriving DecidableEq

/-- Semantics of `requests.Response.raise_for_status()` (line 40): it raises
`requests.HTTPError` exactly for status codes in `[400, 600)`; all other
statuses (including 1xx/3xx) pass through silently. -/
def raiseForStatusFails (status : Nat) : Bool :=
  400 ≤ status && status < 600

/-- Embedding of `JellyfinServer._make_request` (lines 36-44): perform the GET, raise for
4xx/5xx, parse JSON; any `requests.RequestException` is caught, a diagnostic
`"Error making request: ..."` is printed to stderr, and `sys.exit(1)` runs. -/
def make_request (outcome : NetOutcome) : ReqResult ItemsResponse :=
  match outcome with
  | .netError _ => .fatal 1 "Error making request: "
  | .reply status body =>
    if raiseForStatusFails status then .fatal 1 "Error making request: "
    else
      match body with
      | none => .fatal 1 "Error making request: "
      | some data => .ok data

/-- Embedding of `x.get('IndexNumber', 0)`: the sort key of the episode sort (line 60). -/
def episodeKey (x : Item) : Int :=
  x.IndexNumber.getD 0

/-- The comparison used by the embedded `items.sort(key=...)`: ascending by
`episodeKey`. -/
def epLe (a b : Item) : Bool :=
  decide (episodeKey a ≤ episodeKey b)

/-- The post-processing of `get_child_items` (lines 58-60):
`if items and items[0].get('Type') == 'Episode': items.sort(key=lambda x:
x.get('IndexNumber', 0))`.  Python `list.sort` is a stable ascending sort by
the key; it is embedded as `mergeSort` on `epLe`, which is proved below to
be a permutation, sorted by the key, and stable. -/
def sortEpisodes (items : List Item) : List Item :=
  match items with
  | [] => items
  | first :: _ =>
    if first.itemType = some "Episode" then items.mergeSort epLe else items

/-- Embedding of `JellyfinServer.get_collections` (lines 46-50). -/
def get_collections (outcome : NetOutcome) : ReqResult (List Item) :=
  match make_request outcome with
  | .ok data => .ok (data.Items.getD [])
  | .fatal c m => .fatal c m

/-- Embedding of `JellyfinServer.get_child_items` (lines 52-62). -/
def get_child_items (outcome : NetOutcome) : ReqResult (List Item) :=
  match make_request outcome with
  | .ok data => .ok (sortEpisodes (data.Items.getD []))
  | .fatal c m => .fatal c m

/-- Embedding of `JellyfinServer.get_download_url` (lines 64-66):
`f"{self.host}/Items/{item_id}/Download?api_key={self.auth_key}"`.
`host` and `auth_key` are the fields stored at construction. -/
def get_download_url (host auth_key item_id : String) : String :=
  host ++ "/Items/" ++ item_id ++ "/Download?api_key=" ++ auth_key

/-- Python `str.strip()` on the user's input line (line 121), restricted to
ASCII whitespace: drop whitespace characters from both ends. -/
def pyStrip (s : String) : String :=
  ⟨((s.data.dropWhile Char.isWhitespace).reverse.dropWhile
      Char.isWhitespace).reverse⟩

/-- Python `str.lower()` on the user's input line (line 121), restricted to
ASCII letters: lower-case every character. -/
def pyLower (s : String) : String :=
  ⟨s.data.map Char.toLower⟩

/-- Python `int(s)` on an already stripped string (line 133): an optional
sign followed by at least one digit parses, anything else raises
`ValueError` (`none`). -/
def pyIntParse (s : String) : Option Int :=
  let core : List Char → Option Int := fun ds =>
    if ds ≠ [] ∧ ds.all Char.isDigit then
      some (ds.foldl (fun acc c => acc * 10 + ((c.toNat - 48 : Nat) : Int)) 0)
    else none
  match s.data with
  | '-' :: rest => (core rest).map (fun n => -n)
  | '+' :: rest => core rest
  | cs => core cs

/-- Rendering of a possibly-missing id inside an f-string: Python formats
`None` as the string `"None"`. -/
def pyStrOfOpt (o : Option String) : String :=
  match o with
  | some s => s
  | none => "None"

/-- All entries of the list, provided every one is a string: models that
Python `str.join` raises `TypeError` on a `None` element. -/
def optListAll : List (Option String) → Option (List String)
  | [] => some []
  | none :: _ => none
  | some s :: rest => (optListAll rest).map (s :: ·)

/-- Python `sep.join(xs)` over the navigation path (line 108), `none` when a
path entry is `None`. -/
def pyJoin (sep : String) (xs : List (Option String)) : Option String :=
  (optListAll xs).map (String.intercalate sep)

/-- The header printed when entering a node (lines 103-108):
`"\n=== Collections ==="` at the root, else
`f"\n=== {' > '.join(path)} ==="`. -/
def renderHeader (parent : Option String) (path : List (Option String)) :
    Option String :=
  match parent with
  | none => some "\n=== Collections ==="
  | some _ => (pyJoin " > " path).map (fun s => "\n=== " ++ s ++ " ===")

/-- Embedding of `display_items` (lines 87-94): one printed line per item, numbered from
1, with a folder/movie marker, the name (default `"Unknown"`) and the id
(default `""`). -/
def display_items (items : List Item) (indent : Nat := 0) : List String :=
  let pad := String.join (List.replicate indent "  ")
  (List.enumFrom 1 items).map fun p =>
    let marker := if p.2.IsFolder then "📁" else "🎬"
    let name := p.2.Name.getD "Unknown"
    let item_id := p.2.Id.getD ""
    pad ++ toString p.1 ++ ". " ++ marker ++ " " ++ name
      ++ " (ID: " ++ item_id ++ ")"

/-- The options legend (lines 116-119) followed by the `input` prompt
(line 121). -/
def optionsLegend : List String :=
  ["\nOptions:",
   "  - Enter item number to browse/play",
   "  - \x27b\x27 to go back",
   "  - \x27q\x27 to quit",
   "\nYour choice: "]

/-- Oracle for one `subprocess.Popen(['vlc', ...])` call (lines 160-164):
spawn succeeds, raises `FileNotFoundError`, or raises some other
exception. -/
inductive SpawnOutcome where
  | ok
  | fileNotFound
  | otherError (msg : String)
deriving DecidableEq

/-- Result of `play_video`: the spawned command line (if any), the printed
lines (stdout and stderr), and whether `sys.exit` ran (it never does). -/
structure ProcResult where
  spawned : Option (List String)
  outputs : List String
  exit : Option Nat
deriving DecidableEq

/-- Embedding of `play_video` (lines 156-169): build the download URL, spawn VLC;
`FileNotFoundError` and any other exception are caught and reported without
terminating the CLI. -/
def play_video (spawn : SpawnOutcome) (host auth_key : String)
    (item_id : String) (name : String) : ProcResult :=
  let url := get_download_url host auth_key item_id
  match spawn with
  | .ok =>
    { spawned := some ["vlc", url, "--no-video-title-show",
                       "--input-title-format", name],
      outputs := ["Playing: " ++ name],
      exit := none }
  | .fileNotFound =>
    { spawned := none,
      outputs := ["VLC not found. Please install VLC media player."],
      exit := none }
  | .otherError e =>
    { spawned := none,
      outputs := ["Error playing video: " ++ e],
      exit := none }

/-- The per-session data of a reachable server, as seen by the navigator:
the stored configuration fields of `JellyfinServer` plus the `Items` arrays
the server answers with (already after the `data.get('Items', [])`
defaulting).  Fatal request errors terminate the process (see
`make_request`), so navigation is modelled against a server whose requests
succeed. -/
structure ServerData where
  host : String
  auth_key : String
  user_id : String
  collections : List Item
  children : String → List Item

/-- The fetch at the top of `browse_interactive` (lines 103-107): the root
fetches `get_collections()`, a folder fetches `get_child_items(parent)`
whose post-processing is `sortEpisodes`. -/
def fetchItems (srv : ServerData) (parent : Option String) : List Item :=
  match parent with
  | none => srv.collections
  | some p => sortEpisodes (srv.children p)

/-- What one handled user input does (lines 123-153): end the session, or
print `msgs` and loop at node (`parent`, `path`). -/
inductive NavAction where
  | quit
  | navigate (msgs : List String) (parent : Option String)
      (path : List (Option String))
deriving DecidableEq

/-- The dispatch on the processed choice (lines 123-153).  `choice` is the
already stripped and lower-cased input line; `items` is the current node's
item list. -/
def navRespond (srv : ServerData) (spawn : SpawnOutcome) (items : List Item)
    (parent : Option String) (path : List (Option String))
    (choice : String) : NavAction :=
  if choice = "q" then .quit
  else if choice = "b" then
    if path.length > 0 then
      let path' := path.dropLast
      let new_parent := path'.getLast?.join
      .navigate [] new_parent path'
    else .quit
  else
    match pyIntParse choice with
    | some n =>
      let index := n - 1
      if 0 ≤ index ∧ index < (items.length : Int) then
        let item := items.getD index.toNat {}
        let item_name := item.Name.getD "Unknown"
        if item.IsFolder then
          .navigate [] item.Id (path ++ [item.Id])
        else if item.VideoType = some "VideoFile" then
          .navigate (play_video spawn srv.host srv.auth_key
            (pyStrOfOpt item.Id) item_name).outputs parent path
        else
          .navigate ["Cannot play item: " ++ item_name] parent path
      else
        .navigate ["Invalid selection."] parent path
    | none => .navigate ["Invalid input."] parent path

/-- Embedding of `browse_interactive` (lines 97-153), with the blocking `input()` calls
replaced by a list of input lines consumed one per iteration.  Every
recursive call in the source is in tail position and passes the mutated
`path` along, so value-passing is faithful.  The result is the list of
printed strings, or `none` if an uncaught exception ends the process
(a `None` path entry reaching `' > '.join`, or `input()` hitting EOF). -/
def browse_interactive (srv : ServerData) (spawn : SpawnOutcome) :
    List String → Option String → List (Option String) →
    Option (List String)
  | inputs, parent, path =>
    match renderHeader parent path with
    | none => none
    | some header =>
      let items := fetchItems srv parent
      if items = [] then some [header, "No items found."]
      else
        let rendered := header :: (display_items items ++ optionsLegend)
        match inputs with
        | [] => none
        | c :: rest =>
          match navRespond srv spawn items parent path
              (pyLower (pyStrip c)) with
          | .quit => some rendered
          | .navigate msgs parent' path' =>
            (browse_interactive srv spawn rest parent' path').map
              (fun out => rendered ++ (msgs ++ out))

/-- The full rendering of a non-empty node (header, item lines, legend and
prompt), `none` when the header join raises. -/
def renderNode (srv : ServerData) (parent : Option String)
    (path : List (Option String)) : Option (List String) :=
  (renderHeader parent path).map
    (fun header => header :: (display_items (fetchItems srv parent)
      ++ optionsLegend))

/-- A playable item: child `"v1"` of the folder `"c1"` in the example
server below. -/
def vidItem : Item :=
  { Id := some "v1", Name := some "Clip", VideoType := some "VideoFile" }

/-- A top-level folder whose name (`"Movies"`) differs from its id
(`"c1"`). -/
def movieFolder : Item :=
  { Id := some "c1", Name := some "Movies", IsFolder := true }

/-- A concrete example server used by witnesses and counterexamples. -/
def exSrv : ServerData :=
  { host := "http://srv:8096", auth_key := "k1", user_id := "u1",
    collections := [movieFolder],
    children := fun p => if p = "c1" then [vidItem] else [] }

/-- An episode with index 2 (listed first by the example server). -/
def epA : Item :=
  { Id := some "e2", itemType := some "Episode", IndexNumber := some 2 }

/-- An episode with index 1 (listed second by the example server). -/
def epB : Item :=
  { Id := some "e1", itemType := some "Episode", IndexNumber := some 1 }

/-- Unfolding of `renderNode` when the breadcrumb join succeeds. -/
theorem renderNode_eq (srv : ServerData) {parent : Option String}
    {path : List (Option String)} {header : String}
    (hh : renderHeader parent path = some header) :
    renderNode srv parent path
      = some (header :: (display_items (fetchItems srv parent)
          ++ optionsLegend)) := by
  simp [renderNode, hh]

/-- One unfolding of the interactive loop on a non-empty node: render, then
dispatch on the stripped and lower-cased first input. -/
theorem browse_cons (srv : ServerData) (spawn : SpawnOutcome)
    (c : String) (rest : List String) {parent : Option String}
    {path : List (Option String)} {header : String}
    (hh : renderHeader parent path = some header)
    (hne : fetchItems srv parent ≠ []) :
    browse_interactive srv spawn (c :: rest) parent path
      = match navRespond srv spawn (fetchItems srv parent) parent path
            (pyLower (pyStrip c)) with
        | .quit => some (header :: (display_items (fetchItems srv parent)
            ++ optionsLegend))
        | .navigate msgs parent' path' =>
          (browse_interactive srv spawn rest parent' path').map
            (fun out => (header :: (display_items (fetchItems srv parent)
              ++ optionsLegend)) ++ (msgs ++ out)) := by
  rw [browse_interactive]
  rw [hh]
  simp only [if_neg hne]

/-- Dispatch of `"b"` with a non-empty path (lines 125-129). -/
theorem navRespond_b_nonempty (srv : ServerData) (spawn : SpawnOutcome)
    (items : List Item) (parent : Option String)
    {path : List (Option String)} (hp : path ≠ []) :
    navRespond srv spawn items parent path "b"
      = .navigate [] path.dropLast.getLast?.join path.dropLast := by
  have hlen : path.length > 0 := List.length_pos.mpr hp
  simp [navRespond, hlen]

/-- Dispatch of `"b"` with an empty path (lines 125-130): plain return. -/
theorem navRespond_b_empty (srv : ServerData) (spawn : SpawnOutcome)
    (items : List Item) (parent : Option String) :
    navRespond srv spawn items parent [] "b" = .quit := by
  simp [navRespond]

/-- A string that parses as an integer is not `"q"`. -/
theorem pyIntParse_ne_q {s : String} {n : Int}
    (hp : pyIntParse s = some n) : s ≠ "q" := by
  rintro rfl
  rw [show pyIntParse "q" = none from rfl] at hp
  exact Option.noConfusion hp

/-- A string that parses as an integer is not `"b"`. -/
theorem pyIntParse_ne_b {s : String} {n : Int}
    (hp : pyIntParse s = some n) : s ≠ "b" := by
  rintro rfl
  rw [show pyIntParse "b" = none from rfl] at hp
  exact Option.noConfusion hp

/-- Dispatch of an out-of-range integer choice (lines 148-150). -/
theorem navRespond_invalid_selection (srv : ServerData) (spawn : SpawnOutcome)
    (items : List Item) (parent : Option String)
    (path : List (Option String)) {choice : String} {n : Int}
    (hp : pyIntParse choice = some n)
    (hr : ¬(0 ≤ n - 1 ∧ n - 1 < (items.length : Int))) :
    navRespond srv spawn items parent path choice
      = .navigate ["Invalid selection."] parent path := by
  unfold navRespond
  rw [if_neg (pyIntParse_ne_q hp), if_neg (pyIntParse_ne_b hp), hp]
  exact if_neg hr

/-- Dispatch of an in-range choice naming a folder (lines 139-141). -/
theorem navRespond_select_folder (srv : ServerData) (spawn : SpawnOutcome)
    (items : List Item) (parent : Option String)
    (path : List (Option String)) {choice : String} {n : Int}
    (hp : pyIntParse choice = some n)
    (h0 : 0 ≤ n - 1) (h1 : n - 1 < (items.length : Int))
    (hf : (items.getD (n - 1).toNat {}).IsFolder = true) :
    navRespond srv spawn items parent path choice
      = .navigate [] (items.getD (n - 1).toNat {}).Id
          (path ++ [(items.getD (n - 1).toNat {}).Id]) := by
  unfold navRespond
  rw [if_neg (pyIntParse_ne_q hp), if_neg (pyIntParse_ne_b hp), hp]
  dsimp only
  rw [if_pos ⟨h0, h1⟩]
  rw [if_pos hf]

/-- Dispatch of an in-range choice naming a `VideoFile` (lines 142-144). -/
theorem navRespond_select_video (srv : ServerData) (spawn : SpawnOutcome)
    (items : List Item) (parent : Option String)
    (path : List (Option String)) {choice : String} {n : Int}
    (hp : pyIntParse choice = some n)
    (h0 : 0 ≤ n - 1) (h1 : n - 1 < (items.length : Int))
    (hf : (items.getD (n - 1).toNat {}).IsFolder = false)
    (hv : (items.getD (n - 1).toNat {}).VideoType = some "VideoFile") :
    navRespond srv spawn items parent path choice
      = .navigate (play_video spawn srv.host srv.auth_key
          (pyStrOfOpt (items.getD (n - 1).toNat {}).Id)
          ((items.getD (n - 1).toNat {}).Name.getD "Unknown")).outputs
          parent path := by
  unfold navRespond
  rw [if_neg (pyIntParse_ne_q hp), if_neg (pyIntParse_ne_b hp), hp]
  dsimp only
  rw [if_pos ⟨h0, h1⟩]
  rw [if_neg (by rw [hf]; simp), if_pos hv]

/-- Transitivity of the episode comparison. -/
theorem epLe_trans : ∀ a b c : Item, epLe a b → epLe b c → epLe a c := by
  intro a b c hab hbc
  simp only [epLe, decide_eq_true_eq] at hab hbc ⊢
  omega

/-- Totality of the episode comparison. -/
theorem epLe_total : ∀ a b : Item, epLe a b || epLe b a := by
  intro a b
  simp only [epLe, Bool.or_eq_true, decide_eq_true_eq]
  omega

/-- Stability of the embedded sort: each fibre of the sort key is preserved
verbatim, so items with equal `IndexNumber` keep their original relative
order. -/
theorem mergeSort_filter_key (l : List Item) (k : Int) :
    (l.mergeSort epLe).filter (fun x => decide (episodeKey x = k))
      = l.filter (fun x => decide (episodeKey x = k)) := by
  set p : Item → Bool := fun x => decide (episodeKey x = k) with hpdef
  have hsl : List.Sublist (l.filter p) l := List.filter_sublist l
  have hpw : (l.filter p).Pairwise (fun a b => epLe a b = true) := by
    apply List.pairwise_of_forall_mem_list
    intro a ha b hb
    have ha' := (List.mem_filter.mp ha).2
    have hb' := (List.mem_filter.mp hb).2
    rw [hpdef] at ha' hb'
    simp only [decide_eq_true_eq] at ha' hb'
    simp only [epLe, decide_eq_true_eq]
    omega
  have h1 : List.Sublist (l.filter p) (l.mergeSort epLe) :=
    List.sublist_mergeSort epLe_trans epLe_total hpw hsl
  have h2 : List.Perm ((l.mergeSort epLe).filter p) (l.filter p) :=
    (List.mergeSort_perm l epLe).filter p
  have h5 : (l.filter p).filter p = l.filter p := by
    rw [List.filter_filter]
    apply List.filter_congr
    intro a _
    exact Bool.and_self (p a)
  have h3 : List.Sublist (l.filter p) ((l.mergeSort epLe).filter p) := by
    have h4 := h1.filter p
    rwa [h5] at h4
  exact (h3.eq_of_length h2.length_eq.symm).symm

/-- Every successful run of the loop starts its output with the node
header. -/
theorem browse_head (srv : ServerData) (spawn : SpawnOutcome)
    (inputs : List String) (parent : Option String)
    (path : List (Option String)) (out : List String)
    (h : browse_interactive srv spawn inputs parent path = some out) :
    out.head? = renderHeader parent path := by
  rw [browse_interactive] at h
  cases hh : renderHeader parent path with
  | none =>
    rw [hh] at h
    exact absurd h (by simp)
  | some header =>
    rw [hh] at h
    dsimp only at h
    by_cases he : fetchItems srv parent = []
    · rw [if_pos he] at h
      cases h
      rfl
    · rw [if_neg he] at h
      match inputs with
      | [] => exact absurd h (by simp)
      | c :: rest =>
        dsimp only at h
        cases hnav : navRespond srv spawn (fetchItems srv parent) parent path
            (pyLower (pyStrip c)) with
        | quit =>
          rw [hnav] at h
          cases h
          rfl
        | navigate msgs parent' path' =>
          rw [hnav] at h
          rw [Option.map_eq_some'] at h
          obtain ⟨out', _, rfl⟩ := h
          rfl

/-- Two raw inputs with the same stripped-and-lower-cased form drive the
loop identically. -/
theorem browse_input_congr (srv : ServerData) (spawn : SpawnOutcome)
    (rest : List String) (parent : Option String)
    (path : List (Option String)) {c d : String}
    (h : pyLower (pyStrip c) = pyLower (pyStrip d)) :
    browse_interactive srv spawn (c :: rest) parent path
      = browse_interactive srv spawn (d :: rest) parent path := by
  rw [browse_interactive]
  conv_rhs => rw [browse_interactive]
  dsimp only
  rw [h]

/-- C1: `get_child_items` returns the server's `Items` array unchanged
unless the first item's `Type` is `"Episode"`, in which case the returned
list is the input stably sorted ascending by `IndexNumber` with a missing
index treated as 0: a permutation of the input, sorted by the key, with
every fibre of the key kept in its original order. -/
theorem C1_listChildren_episode_sort (items : List Item) :
    get_child_items (NetOutcome.reply 200 (some { Items := some items }))
        = .ok (sortEpisodes items)
    ∧ (∀ first rest, items = first :: rest →
        first.itemType = some "Episode" →
        List.Perm (sortEpisodes items) items
        ∧ (sortEpisodes items).Pairwise
            (fun a b => episodeKey a ≤ episodeKey b)
        ∧ ∀ k : Int, (sortEpisodes items).filter
              (fun x => decide (episodeKey x = k))
            = items.filter (fun x => decide (episodeKey x = k)))
    ∧ (∀ first rest, items = first :: rest →
        ¬ first.itemType = some "Episode" → sortEpisodes items = items)
    ∧ (items = [] → sortEpisodes items = items) := by
  refine ⟨?_, ?_, ?_, ?_⟩
  · rfl
  · rintro first rest rfl hep
    have hs : sortEpisodes (first :: rest)
        = (first :: rest).mergeSort epLe := by
      simp [sortEpisodes, hep]
    rw [hs]
    refine ⟨List.mergeSort_perm _ _, ?_, ?_⟩
    · exact (List.sorted_mergeSort epLe_trans epLe_total _).imp
        (fun h => by simpa [epLe] using h)
    · intro k
      exact mergeSort_filter_key _ k
  · rintro first rest rfl hne
    simp [sortEpisodes, hne]
  · rintro rfl
    rfl

/-- Witness for C1 at a concrete two-episode list in reversed order. -/
theorem C1_listChildren_episode_sort_witness :
    (([epA, epB] : List Item) = epA :: [epB]
      ∧ epA.itemType = some "Episode")
    ∧ List.Perm (sortEpisodes [epA, epB]) [epA, epB]
    ∧ (sortEpisodes [epA, epB]).Pairwise
        (fun a b => episodeKey a ≤ episodeKey b) := by
  have h := (C1_listChildren_episode_sort [epA, epB]).2.1 epA [epB] rfl rfl
  exact ⟨⟨rfl, rfl⟩, h.1, h.2.1⟩

/-- C2 counterexample: descending from the root into the folder named
`"Movies"` with id `"c1"` renders the breadcrumb header from the id, not
the name — the output contains `"\n=== c1 ==="` and no
`"\n=== Movies ==="`. -/
theorem C2_cex_breadcrumb_uses_ids :
    ("\n=== c1 ===" ∈ (browse_interactive exSrv .ok ["1", "q"] none []).getD [])
    ∧ "\n=== Movies ===" ∉ (browse_interactive exSrv .ok ["1", "q"] none []).getD []
    ∧ (browse_interactive exSrv .ok ["1", "q"] none []).isSome = true := by
  decide

/-- C2 (amended): every successful render starts with the breadcrumb
header, which is `"\n=== Collections ==="` at the root and otherwise the
ids on the navigation path (the ids of the folders descended into, pushed
by the folder branch) joined by `" > "` — the ids, not the names. -/
theorem C2_amended_breadcrumb :
    (∀ srv spawn inputs parent path out,
      browse_interactive srv spawn inputs parent path = some out →
      out.head? = renderHeader parent path)
    ∧ (∀ path, renderHeader none path = some "\n=== Collections ===")
    ∧ (∀ p path strs, optListAll path = some strs →
        renderHeader (some p) path
          = some ("\n=== " ++ String.intercalate " > " strs ++ " ==="))
    ∧ (∀ srv spawn items parent path choice n,
        pyIntParse choice = some n → 0 ≤ n - 1 →
        n - 1 < (items.length : Int) →
        (items.getD (n - 1).toNat {}).IsFolder = true →
        navRespond srv spawn items parent path choice
          = .navigate [] (items.getD (n - 1).toNat {}).Id
              (path ++ [(items.getD (n - 1).toNat {}).Id])) := by
  refine ⟨browse_head, fun path => rfl, ?_, ?_⟩
  · intro p path strs hs
    simp [renderHeader, pyJoin, hs]
  · intro srv spawn items parent path choice n hp h0 h1 hf
    exact navRespond_select_folder srv spawn items parent path hp h0 h1 hf

/-- Witness for C2 (amended) at the concrete example server. -/
theorem C2_amended_breadcrumb_witness :
    (browse_interactive exSrv .ok ["q"] none []
        = some ("\n=== Collections ==="
            :: (display_items (fetchItems exSrv none) ++ optionsLegend)))
    ∧ ("\n=== Collections ==="
          :: (display_items (fetchItems exSrv none) ++ optionsLegend)).head?
        = renderHeader none ([] : List (Option String)) := by
  have hb : browse_interactive exSrv .ok ["q"] none []
      = some ("\n=== Collections ==="
          :: (display_items (fetchItems exSrv none) ++ optionsLegend)) := by
    decide
  exact ⟨hb, C2_amended_breadcrumb.1 exSrv .ok ["q"] none [] _ hb⟩

/-- C3 counterexample: at the root with empty path, input `"b"` ends the
session after the single initial render — the root is rendered exactly
once, not re-rendered. -/
theorem C3_cex_back_at_root_terminates :
    browse_interactive exSrv .ok ["b"] none [] = renderNode exSrv none []
    ∧ ((renderNode exSrv none []).getD []).count "\n=== Collections ===" = 1
    ∧ ((renderNode exSrv none []).getD []).count "1. 📁 Movies (ID: c1)" = 1 := by
  refine ⟨by decide, by decide, by decide⟩

/-- C3 (amended): input `"b"` with an empty path never throws and leaves
the path untouched, but it terminates the interactive session (the function
returns) instead of re-rendering the root: the output is the single render
already produced. -/
theorem C3_amended_back_at_root :
    ∀ (srv : ServerData) (spawn : SpawnOutcome) (c : String)
      (rest : List String) (parent : Option String),
    pyLower (pyStrip c) = "b" →
    fetchItems srv parent ≠ [] →
    browse_interactive srv spawn (c :: rest) parent []
        = renderNode srv parent []
    ∧ navRespond srv spawn (fetchItems srv parent) parent [] "b"
        = .quit := by
  intro srv spawn c rest parent hc hne
  obtain ⟨header, hh⟩ : ∃ h, renderHeader parent [] = some h := by
    cases parent <;> exact ⟨_, rfl⟩
  refine ⟨?_, navRespond_b_empty srv spawn _ parent⟩
  rw [browse_cons srv spawn c rest hh hne, hc,
    navRespond_b_empty srv spawn _ parent, renderNode_eq srv hh]

/-- Witness for C3 (amended) at the concrete example server. -/
theorem C3_amended_back_at_root_witness :
    (pyLower (pyStrip "b") = "b" ∧ fetchItems exSrv none ≠ [])
    ∧ browse_interactive exSrv .ok ["b", "q"] none []
        = renderNode exSrv none [] := by
  exact ⟨⟨by decide, by decide⟩,
    (C3_amended_back_at_root exSrv .ok "b" ["q"] none (by decide)
      (by decide)).1⟩

/-- C4: input `"b"` with a non-empty path pops exactly the last entry and
loops at the parent node — the new parent is the last entry of the popped
path (`none`, the root fetching `get_collections`, when the path became
empty); that node is fetched and rendered by the continuation. -/
theorem C4_back_pops_to_parent :
    ∀ (srv : ServerData) (spawn : SpawnOutcome) (c : String)
      (rest : List String) (parent : Option String)
      (path : List (Option String)),
    path ≠ [] →
    pyLower (pyStrip c) = "b" →
    fetchItems srv parent ≠ [] →
    browse_interactive srv spawn (c :: rest) parent path
        = (renderNode srv parent path).bind (fun r =>
            (browse_interactive srv spawn rest path.dropLast.getLast?.join
              path.dropLast).map (fun out => r ++ out))
    ∧ (path.dropLast = [] →
        path.dropLast.getLast?.join = none
        ∧ fetchItems srv none = srv.collections) := by
  intro srv spawn c rest parent path hpath hc hne
  refine ⟨?_, fun hd => ⟨by rw [hd]; rfl, rfl⟩⟩
  cases hh : renderHeader parent path with
  | none =>
    rw [browse_interactive, hh]
    simp [renderNode, hh]
  | some header =>
    rw [browse_cons srv spawn c rest hh hne, hc,
      navRespond_b_nonempty srv spawn _ parent hpath,
      renderNode_eq srv hh]
    dsimp only
    simp only [Option.some_bind, List.nil_append]

/-- Witness for C4: from the folder `"c1"` with path `["c1"]`, `"b"` pops
to the empty path and the root. -/
theorem C4_back_pops_to_parent_witness :
    (([some "c1"] : List (Option String)) ≠ []
      ∧ pyLower (pyStrip "b") = "b"
      ∧ fetchItems exSrv (some "c1") ≠ [])
    ∧ browse_interactive exSrv .ok ["b", "q"] (some "c1") [some "c1"]
        = (renderNode exSrv (some "c1") [some "c1"]).bind (fun r =>
            (browse_interactive exSrv .ok ["q"]
              ([some "c1"] : List (Option String)).dropLast.getLast?.join
              ([some "c1"] : List (Option String)).dropLast).map
              (fun out => r ++ out)) := by
  exact ⟨⟨by decide, by decide, by decide⟩,
    (C4_back_pops_to_parent exSrv .ok "b" ["q"] (some "c1") [some "c1"]
      (by decide) (by decide) (by decide)).1⟩

/-- C5: an integer input out of range (`n < 1` or `n >` item count) prints
`"Invalid selection."` and loops at the very same node: the continuation
runs with the identical `(parent, path)` pair, only the message differs. -/
theorem C5_out_of_range_keeps_state :
    ∀ (srv : ServerData) (spawn : SpawnOutcome) (c : String)
      (rest : List String) (parent : Option String)
      (path : List (Option String)) (n : Int),
    fetchItems srv parent ≠ [] →
    pyIntParse (pyLower (pyStrip c)) = some n →
    (n < 1 ∨ n > ((fetchItems srv parent).length : Int)) →
    browse_interactive srv spawn (c :: rest) parent path
      = (renderNode srv parent path).bind (fun r =>
          (browse_interactive srv spawn rest parent path).map
            (fun out => r ++ (["Invalid selection."] ++ out))) := by
  intro srv spawn c rest parent path n hne hp hr
  have hr' : ¬(0 ≤ n - 1 ∧ n - 1 < ((fetchItems srv parent).length : Int)) := by
    omega
  cases hh : renderHeader parent path with
  | none =>
    rw [browse_interactive, hh]
    simp [renderNode, hh]
  | some header =>
    rw [browse_cons srv spawn c rest hh hne,
      navRespond_invalid_selection srv spawn _ parent path hp hr',
      renderNode_eq srv hh]
    dsimp only
    simp only [Option.some_bind]

/-- Witness for C5: input `"5"` at the single-item root re-renders the root
with `"Invalid selection."`. -/
theorem C5_out_of_range_keeps_state_witness :
    (fetchItems exSrv none ≠ []
      ∧ pyIntParse (pyLower (pyStrip "5")) = some 5
      ∧ ((5 : Int) < 1 ∨ (5 : Int) > ((fetchItems exSrv none).length : Int)))
    ∧ browse_interactive exSrv .ok ["5", "q"] none []
        = (renderNode exSrv none []).bind (fun r =>
            (browse_interactive exSrv .ok ["q"] none []).map
              (fun out => r ++ (["Invalid selection."] ++ out))) := by
  exact ⟨⟨by decide, by decide, by decide⟩,
    C5_out_of_range_keeps_state exSrv .ok "5" ["q"] none [] 5
      (by decide) (by decide) (by decide)⟩

/-- C6: `get_download_url` is pure and deterministic in (host, auth key,
item id); the URL embeds the item id and carries the auth key as the value
of the `api_key` query parameter; no network oracle is consumed. -/
theorem C6_downloadUrl_pure (host auth_key item_id : String) :
    get_download_url host auth_key item_id
        = get_download_url host auth_key item_id
    ∧ get_download_url host auth_key item_id
        = host ++ "/Items/" ++ item_id ++ "/Download?api_key=" ++ auth_key
    ∧ (∃ pre post,
        get_download_url host auth_key item_id = pre ++ item_id ++ post)
    ∧ (∃ pre,
        get_download_url host auth_key item_id
          = pre ++ "?api_key=" ++ auth_key) := by
  refine ⟨rfl, rfl,
    ⟨host ++ "/Items/", "/Download?api_key=" ++ auth_key, ?_⟩,
    ⟨host ++ "/Items/" ++ item_id ++ "/Download", ?_⟩⟩
  · simp [get_download_url, String.append_assoc]
  · have hsplit : ("/Download?api_key=" : String)
        = "/Download" ++ "?api_key=" := rfl
    rw [get_download_url, hsplit]
    simp [String.append_assoc]

/-- C7 counterexample: a non-2xx response (status 300) whose body parses as
JSON is returned as a success by `_make_request` — the process does not
terminate, contradicting the claim for all non-2xx statuses. -/
theorem C7_cex_non2xx_ok :
    make_request (NetOutcome.reply 300 (some { Items := some [] }))
      = ReqResult.ok { Items := some [] } := by
  rfl

/-- C7 (amended): a network-layer failure, a 4xx/5xx response, or a
response body that is not JSON is fatal — the diagnostic is printed to
stderr and the process exits with code 1, with no retry and no partial
result and no other error kind; but any other status (2xx/3xx) with a JSON
body is returned as a success. -/
theorem C7_amended_request_failure :
    (∀ e, make_request (NetOutcome.netError e)
      = .fatal 1 "Error making request: ")
    ∧ (∀ status body, 400 ≤ status → status < 600 →
        make_request (NetOutcome.reply status body)
          = .fatal 1 "Error making request: ")
    ∧ (∀ status, ¬(400 ≤ status ∧ status < 600) →
        make_request (NetOutcome.reply status none)
          = .fatal 1 "Error making request: ")
    ∧ (∀ status data, ¬(400 ≤ status ∧ status < 600) →
        make_request (NetOutcome.reply status (some data)) = .ok data)
    ∧ (∀ outcome c m, make_request outcome = .fatal c m →
        get_collections outcome = .fatal c m
        ∧ get_child_items outcome = .fatal c m
        ∧ c = 1 ∧ m = "Error making request: ") := by
  refine ⟨fun e => rfl, ?_, ?_, ?_, ?_⟩
  · intro status body h4 h6
    simp [make_request, raiseForStatusFails, h4, h6]
  · intro status h
    simp only [make_request, raiseForStatusFails]
    rw [if_neg (by simpa [Bool.and_eq_true, decide_eq_true_eq] using h)]
  · intro status data h
    simp only [make_request, raiseForStatusFails]
    rw [if_neg (by simpa [Bool.and_eq_true, decide_eq_true_eq] using h)]
  · intro outcome c m hf
    refine ⟨?_, ?_, ?_⟩
    · simp [get_collections, hf]
    · simp [get_child_items, hf]
    · revert hf
      unfold make_request
      match outcome with
      | .netError e => intro hf; cases hf; exact ⟨rfl, rfl⟩
      | .reply status body =>
        dsimp only
        split
        · intro hf; cases hf; exact ⟨rfl, rfl⟩
        · match body with
          | none => intro hf; cases hf; exact ⟨rfl, rfl⟩
          | some d => intro hf; cases hf

/-- Witness for C7 (amended): a 404 with a JSON body is fatal, exit 1. -/
theorem C7_amended_request_failure_witness :
    (400 ≤ 404 ∧ 404 < 600)
    ∧ make_request (NetOutcome.reply 404 (some { Items := some [] }))
        = .fatal 1 "Error making request: " := by
  exact ⟨by omega,
    C7_amended_request_failure.2.1 404 (some { Items := some [] })
      (by omega) (by omega)⟩

/-- C8: `play_video` never terminates the CLI — `sys.exit` is not reached
for any spawn outcome; a missing VLC executable and any other spawn failure
print their diagnostics; and the interactive session then loops at the very
same `(parent, path)` after a `VideoFile` selection. -/
theorem C8_player_failure_recoverable :
    (∀ (spawn : SpawnOutcome) (host key id name : String),
      (play_video spawn host key id name).exit = none)
    ∧ (∀ host key id name : String,
        (play_video .fileNotFound host key id name).outputs
          = ["VLC not found. Please install VLC media player."])
    ∧ (∀ (e host key id name : String),
        (play_video (.otherError e) host key id name).outputs
          = ["Error playing video: " ++ e])
    ∧ (∀ (srv : ServerData) (spawn : SpawnOutcome) (c : String)
        (rest : List String) (parent : Option String)
        (path : List (Option String)) (n : Int),
        fetchItems srv parent ≠ [] →
        pyIntParse (pyLower (pyStrip c)) = some n →
        0 ≤ n - 1 → n - 1 < ((fetchItems srv parent).length : Int) →
        ((fetchItems srv parent).getD (n - 1).toNat {}).IsFolder = false →
        ((fetchItems srv parent).getD (n - 1).toNat {}).VideoType
          = some "VideoFile" →
        browse_interactive srv spawn (c :: rest) parent path
          = (renderNode srv parent path).bind (fun r =>
              (browse_interactive srv spawn rest parent path).map
                (fun out => r ++ ((play_video spawn srv.host srv.auth_key
                  (pyStrOfOpt ((fetchItems srv parent).getD
                    (n - 1).toNat {}).Id)
                  (((fetchItems srv parent).getD
                    (n - 1).toNat {}).Name.getD "Unknown")).outputs
                  ++ out)))) := by
  refine ⟨fun spawn host key id name => by cases spawn <;> rfl,
    fun host key id name => rfl, fun e host key id name => rfl, ?_⟩
  intro srv spawn c rest parent path n hne hp h0 h1 hf hv
  cases hh : renderHeader parent path with
  | none =>
    rw [browse_interactive, hh]
    simp [renderNode, hh]
  | some header =>
    rw [browse_cons srv spawn c rest hh hne,
      navRespond_select_video srv spawn _ parent path hp h0 h1 hf hv,
      renderNode_eq srv hh]
    dsimp only
    simp only [Option.some_bind]

/-- Witness for C8: the `VideoFile` item `"v1"` inside folder `"c1"`, with
a missing VLC executable. -/
theorem C8_player_failure_recoverable_witness :
    (fetchItems exSrv (some "c1") ≠ []
      ∧ pyIntParse (pyLower (pyStrip "1")) = some 1
      ∧ ((fetchItems exSrv (some "c1")).getD ((1 : Int) - 1).toNat
          {}).VideoType = some "VideoFile")
    ∧ browse_interactive exSrv .fileNotFound ["1", "q"] (some "c1")
          [some "c1"]
        = (renderNode exSrv (some "c1") [some "c1"]).bind (fun r =>
            (browse_interactive exSrv .fileNotFound ["q"] (some "c1")
              [some "c1"]).map
              (fun out => r ++ ((play_video .fileNotFound exSrv.host
                exSrv.auth_key
                (pyStrOfOpt ((fetchItems exSrv (some "c1")).getD
                  ((1 : Int) - 1).toNat {}).Id)
                (((fetchItems exSrv (some "c1")).getD
                  ((1 : Int) - 1).toNat {}).Name.getD "Unknown")).outputs
                ++ out))) := by
  exact ⟨⟨by decide, by decide, by decide⟩,
    C8_player_failure_recoverable.2.2.2 exSrv .fileNotFound "1" ["q"]
      (some "c1") [some "c1"] 1 (by decide) (by decide) (by decide)
      (by decide) (by decide) (by decide)⟩

/-- C9: a node whose fetched item list is empty prints the header and
`"No items found."` and returns at once — no prompt is shown, no input is
consumed, and the whole interactive session ends regardless of the
remaining inputs. -/
theorem C9_empty_node_ends_session :
    ∀ (srv : ServerData) (spawn : SpawnOutcome) (inputs : List String)
      (parent : Option String) (path : List (Option String))
      (header : String),
    renderHeader parent path = some header →
    fetchItems srv parent = [] →
    browse_interactive srv spawn inputs parent path
      = some [header, "No items found."] := by
  intro srv spawn inputs parent path header hh he
  rw [browse_interactive, hh]
  dsimp only
  rw [if_pos he]

/-- Witness for C9: descending into the empty folder `"zzz"` ends the
session even though inputs (a `"b"` and a `"q"`) remain. -/
theorem C9_empty_node_ends_session_witness :
    (renderHeader (some "zzz") [some "zzz"] = some "\n=== zzz ==="
      ∧ fetchItems exSrv (some "zzz") = [])
    ∧ browse_interactive exSrv .ok ["b", "q"] (some "zzz") [some "zzz"]
        = some ["\n=== zzz ===", "No items found."] := by
  exact ⟨⟨by decide, by decide⟩,
    C9_empty_node_ends_session exSrv .ok ["b", "q"] (some "zzz")
      [some "zzz"] "\n=== zzz ===" (by decide) (by decide)⟩

/-- C10: the raw input line is stripped of surrounding whitespace and
lower-cased before interpretation (the dispatch runs on
`pyLower (pyStrip c)`), so `"Q"`, `" q "`, `"B"`, `" 2 "` behave exactly
like `"q"`, `"q"`, `"b"`, `"2"`. -/
theorem C10_input_normalized :
    (∀ (srv : ServerData) (spawn : SpawnOutcome) (c : String)
      (rest : List String) (parent : Option String)
      (path : List (Option String)) (header : String),
      renderHeader parent path = some header →
      fetchItems srv parent ≠ [] →
      browse_interactive srv spawn (c :: rest) parent path
        = match navRespond srv spawn (fetchItems srv parent) parent path
              (pyLower (pyStrip c)) with
          | .quit => some (header :: (display_items (fetchItems srv parent)
              ++ optionsLegend))
          | .navigate msgs parent' path' =>
            (browse_interactive srv spawn rest parent' path').map
              (fun out => (header :: (display_items (fetchItems srv parent)
                ++ optionsLegend)) ++ (msgs ++ out)))
    ∧ (∀ (srv : ServerData) (spawn : SpawnOutcome) (rest : List String)
        (parent : Option String) (path : List (Option String)),
        browse_interactive srv spawn ("Q" :: rest) parent path
          = browse_interactive srv spawn ("q" :: rest) parent path
        ∧ browse_interactive srv spawn (" q " :: rest) parent path
          = browse_interactive srv spawn ("q" :: rest) parent path
        ∧ browse_interactive srv spawn ("B" :: rest) parent path
          = browse_interactive srv spawn ("b" :: rest) parent path
        ∧ browse_interactive srv spawn (" 2 " :: rest) parent path
          = browse_interactive srv spawn ("2" :: rest) parent path) := by
  refine ⟨?_, ?_⟩
  · intro srv spawn c rest parent path header hh hne
    exact browse_cons srv spawn c rest hh hne
  · intro srv spawn rest parent path
    exact ⟨browse_input_congr srv spawn rest parent path (by decide),
      browse_input_congr srv spawn rest parent path (by decide),
      browse_input_congr srv spawn rest parent path (by decide),
      browse_input_congr srv spawn rest parent path (by decide)⟩

/-- Witness for C10: the quit input at the concrete root. -/
theorem C10_input_normalized_witness :
    (renderHeader none ([] : List (Option String))
        = some "\n=== Collections ==="
      ∧ fetchItems exSrv none ≠ [])
    ∧ browse_interactive exSrv .ok ["q"] none []
        = some ("\n=== Collections ==="
            :: (display_items (fetchItems exSrv none) ++ optionsLegend)) := by
  refine ⟨⟨by decide, by decide⟩, ?_⟩
  have h := C10_input_normalized.1 exSrv .ok "q" [] none []
    "\n=== Collections ===" (by decide) (by decide)
  exact h.trans (by decide)
